import Mathlib

/-!
Shallow embedding of the stored-procedure invocation and result-validation
layer of the repository (tRPC router in `server/api/routers/blog.ts`,
given as `src/unnamed/part_003` and `src/unnamed/part_004`), together with
the seed routine `populateDatabase`.

Modelling conventions:
* JavaScript runtime values that can reach the zod validators are modelled
  by the inductive type `Value`; a missing object key (JS `undefined`) is
  modelled as `Option.none` at lookup time.
* JavaScript numbers (IEEE-754 doubles) are modelled by `JsNum`: either
  `nan` or a finite rational. Every finite number actually constructed in
  the theorems below is exactly representable as a double, so the rational
  model is exact on the inputs considered. The conversion
  `Number : BigInt -> number` is modelled by `jsNumberOfBigInt`, which
  performs IEEE round-to-nearest, ties-to-even on the 53-bit significand
  (overflow to infinity, beyond 2^1024, is outside the range of any input
  considered here). `Number : string -> number` is modelled by
  `jsNumberOfString` for plain decimal literals (optional sign, digits,
  optional fractional part); other exotic forms (exponents, hex,
  Infinity) do not occur in the inputs considered.
* zod schema parsing is modelled by functions into `Except`, with errors
  carrying the column name, and array parsing carrying the row index.
  zod collects every issue before throwing; the model reports the first
  issue, which is equivalent for every success/failure proposition proved
  here.
-/

namespace StoredProcs

/-- A JavaScript number: NaN or a finite value (modelled as a rational;
exact for all inputs considered). -/
inductive JsNum where
  | nan : JsNum
  | fin (q : ℚ) : JsNum
deriving DecidableEq

/-- A JavaScript runtime value as it can appear in a raw database row or a
request input: string, BigInt, number, Date (epoch milliseconds), null,
a Prisma Decimal object (exposing `toNumber`), or boolean. -/
inductive Value where
  | str (s : String) : Value
  | bigIntV (n : ℤ) : Value
  | numV (x : JsNum) : Value
  | dateV (t : ℤ) : Value
  | nullV : Value
  | decimalV (q : ℚ) : Value
  | boolV (b : Bool) : Value
deriving DecidableEq

/-- Round `n / d` (for `d > 0`) to the nearest integer, ties to even. -/
def roundHalfEven (n d : ℤ) : ℤ :=
  let q := n / d
  let r := n % d
  if 2 * r < d then q
  else if 2 * r > d then q + 1
  else if q % 2 = 0 then q else q + 1

/-- Base-2 logarithm computed by structural recursion on a fuel
argument (so that it reduces definitionally; the fuel is always an
upper bound on the recursion depth when called through `natLog2`). -/
def log2Fuel : ℕ → ℕ → ℕ
  | 0, _ => 0
  | fuel + 1, n => if 2 ≤ n then log2Fuel fuel (n / 2) + 1 else 0

/-- `⌊log₂ n⌋` for `n ≥ 1`; `0` for `n = 0`. -/
def natLog2 (n : ℕ) : ℕ := log2Fuel n n

/-- The JavaScript conversion `Number(b)` for a BigInt `b`: exact when
`|b| <= 2^53`, otherwise rounded to the nearest double
(round-to-nearest, ties-to-even on a 53-bit significand). -/
def jsNumberOfBigInt (n : ℤ) : ℤ :=
  if n.natAbs ≤ 2 ^ 53 then n
  else
    let e : ℕ := natLog2 n.natAbs - 52
    (if n < 0 then -1 else 1) * roundHalfEven (n.natAbs : ℤ) (2 ^ e) * 2 ^ e

/-- Digits of a string fragment interpreted in base 10; `none` if the
fragment is empty or contains a non-digit character. -/
def parseDigits (cs : List Char) : Option ℕ :=
  if cs.isEmpty then none
  else cs.foldl (fun acc c =>
    match acc with
    | none => none
    | some v => if c.isDigit then some (v * 10 + (c.toNat - 48)) else none)
    (some 0)

/-- Split a character list at the first occurrence of `'.'`. -/
def splitAtDot (cs : List Char) : List Char × Option (List Char) :=
  match cs.span (fun c => c ≠ '.') with
  | (before, []) => (before, none)
  | (before, _ :: after) => (before, some after)

/-- The JavaScript conversion `Number(s)` for a string `s`, for plain
decimal literals: trims whitespace, empty becomes `0`, an optional sign
followed by digits with an optional fractional part parses exactly, and
anything else is NaN. -/
def jsNumberOfString (s : String) : JsNum :=
  let t := ((s.data.dropWhile Char.isWhitespace).reverse.dropWhile
    Char.isWhitespace).reverse
  if t.isEmpty then .fin 0
  else
    let (sign, rest) :=
      match t with
      | '-' :: r => ((-1 : ℚ), r)
      | '+' :: r => ((1 : ℚ), r)
      | r => ((1 : ℚ), r)
    match splitAtDot rest with
    | (intPart, none) =>
      match parseDigits intPart with
      | some v => .fin (sign * v)
      | none => .nan
    | (intPart, some fracPart) =>
      if fracPart.isEmpty then
        match parseDigits intPart with
        | some v => .fin (sign * v)
        | none => .nan
      else if intPart.isEmpty then
        match parseDigits fracPart with
        | some f => .fin (sign * ((f : ℚ) / (10 : ℚ) ^ fracPart.length))
        | none => .nan
      else
        match parseDigits intPart, parseDigits fracPart with
        | some v, some f =>
          .fin (sign * ((v : ℚ) + (f : ℚ) / (10 : ℚ) ^ fracPart.length))
        | _, _ => .nan

/-- The JavaScript coercion `Number(v)` on a present value or on
`undefined` (`none`). `Number(undefined)` is NaN, `Number(null)` is `0`,
a Date coerces to its epoch milliseconds, booleans to `0`/`1`. A Prisma
Decimal object is coerced through its string form; in the code under
study it is always intercepted before reaching `Number`, so its value
here is taken from the decimal it carries. -/
def jsToNumber : Option Value → JsNum
  | none => .nan
  | some (.str s) => jsNumberOfString s
  | some (.bigIntV n) => .fin (jsNumberOfBigInt n)
  | some (.numV x) => x
  | some (.dateV t) => .fin t
  | some .nullV => .fin 0
  | some (.decimalV q) => .fin q
  | some (.boolV b) => .fin (if b then 1 else 0)

/-- A raw result row as returned by the database driver: an untyped list
of column-name/value bindings. -/
abbrev RawRow := List (String × Value)

/-- Look up a column in a raw row; `none` models JS `undefined` for a
missing key. -/
def lookupCol (r : RawRow) (k : String) : Option Value :=
  (r.find? (fun p => p.1 = k)).map Prod.snd

/-- zod `z.string()`: accepts exactly a string value. -/
def zString : Option Value → Except String String
  | some (.str s) => .ok s
  | _ => .error "Expected string"

/-- zod `z.bigint()`: accepts exactly a BigInt value. -/
def zBigInt : Option Value → Except String ℤ
  | some (.bigIntV n) => .ok n
  | _ => .error "Expected bigint"

/-- zod `z.number()`: accepts exactly a (non-NaN) number value; zod
classifies NaN as its own parsed type and rejects it. -/
def zNumber : Option Value → Except String JsNum
  | some (.numV (.fin q)) => .ok (.fin q)
  | some (.numV .nan) => .error "Expected number, received nan"
  | _ => .error "Expected number"

/-- zod `z.date()`: accepts exactly a Date value. -/
def zDate : Option Value → Except String ℤ
  | some (.dateV t) => .ok t
  | _ => .error "Expected date"

/-- zod `z.string().nullable()`: null becomes the absent marker `none`;
`undefined` (a missing key) is still rejected. -/
def zNullableString : Option Value → Except String (Option String)
  | some .nullV => .ok none
  | some (.str s) => .ok (some s)
  | _ => .error "Expected string or null"

/-- zod `z.number().nullable()`. -/
def zNullableNumber : Option Value → Except String (Option JsNum)
  | some .nullV => .ok none
  | some (.numV (.fin q)) => .ok (some (.fin q))
  | _ => .error "Expected number or null"

/-- zod `z.date().nullable()`. -/
def zNullableDate : Option Value → Except String (Option ℤ)
  | some .nullV => .ok none
  | some (.dateV t) => .ok (some t)
  | _ => .error "Expected date or null"

/-- The `avg_views_per_post` validator of `BlogAnalyticsRawSchema`:
`z.any().transform(val => ...)`. `z.any()` accepts every value including
`undefined`; the transform returns `val.toNumber()` when `val` is an
object exposing `toNumber` (a Prisma Decimal), and `Number(val)`
otherwise. It can never fail. -/
def avgViewsTransform : Option Value → JsNum
  | some (.decimalV q) => .fin q
  | v => jsToNumber v

/-- Tag a field parser with its column name, reading the column from the
raw row (zod object parsing records the key on the issue path). -/
def fieldP {α : Type} (col : String) (p : Option Value → Except String α)
    (r : RawRow) : Except (String × String) α :=
  (p (lookupCol r col)).mapError (fun m => (col, m))

/-- The parsed form of one `BlogAnalyticsRawSchema` row. -/
structure BlogAnalyticsRaw where
  author_name : String
  author_email : String
  total_posts : ℤ
  published_posts : ℤ
  total_views : ℤ
  avg_views_per_post : JsNum
  most_popular_post_title : Option String
  most_popular_post_views : Option JsNum
  categories_used : ℤ
  total_tags : ℤ
  first_post_date : Option ℤ
  last_post_date : Option ℤ
deriving DecidableEq

/-- `BlogAnalyticsRawSchema.parse` on one raw row, fields in declaration
order; an error carries the column name. -/
def parseBlogAnalyticsRaw (r : RawRow) : Except (String × String) BlogAnalyticsRaw := do
  let author_name ← fieldP "author_name" zString r
  let author_email ← fieldP "author_email" zString r
  let total_posts ← fieldP "total_posts" zBigInt r
  let published_posts ← fieldP "published_posts" zBigInt r
  let total_views ← fieldP "total_views" zBigInt r
  let avg_views_per_post := avgViewsTransform (lookupCol r "avg_views_per_post")
  let most_popular_post_title ← fieldP "most_popular_post_title" zNullableString r
  let most_popular_post_views ← fieldP "most_popular_post_views" zNullableNumber r
  let categories_used ← fieldP "categories_used" zBigInt r
  let total_tags ← fieldP "total_tags" zBigInt r
  let first_post_date ← fieldP "first_post_date" zNullableDate r
  let last_post_date ← fieldP "last_post_date" zNullableDate r
  pure { author_name, author_email, total_posts, published_posts,
         total_views, avg_views_per_post, most_popular_post_title,
         most_popular_post_views, categories_used, total_tags,
         first_post_date, last_post_date }

/-- The parsed form of one `TopPostRawSchema` row. -/
structure TopPostRaw where
  post_title : String
  author_name : String
  view_count : JsNum
  published_at : ℤ
  tag_count : ℤ
deriving DecidableEq

/-- `TopPostRawSchema.parse` on one raw row. -/
def parseTopPostRaw (r : RawRow) : Except (String × String) TopPostRaw := do
  let post_title ← fieldP "post_title" zString r
  let author_name ← fieldP "author_name" zString r
  let view_count ← fieldP "view_count" zNumber r
  let published_at ← fieldP "published_at" zDate r
  let tag_count ← fieldP "tag_count" zBigInt r
  pure { post_title, author_name, view_count, published_at, tag_count }

/-- One row of the endpoint output, after `transformBlogAnalytics`
(shape of `BlogAnalyticsOutputSchema`). -/
structure BlogAnalyticsOut where
  author_name : String
  author_email : String
  total_posts : JsNum
  published_posts : JsNum
  total_views : JsNum
  avg_views_per_post : JsNum
  most_popular_post_title : Option String
  most_popular_post_views : Option JsNum
  categories_used : JsNum
  total_tags : JsNum
  first_post_date : Option ℤ
  last_post_date : Option ℤ
deriving DecidableEq

/-- `transformBlogAnalytics`: copies every field, converting the BigInt
count columns with `Number(...)`; `avg_views_per_post` is passed through
unchanged (already transformed by zod). -/
def transformBlogAnalytics (raw : BlogAnalyticsRaw) : BlogAnalyticsOut :=
  { author_name := raw.author_name
    author_email := raw.author_email
    total_posts := .fin (jsNumberOfBigInt raw.total_posts)
    published_posts := .fin (jsNumberOfBigInt raw.published_posts)
    total_views := .fin (jsNumberOfBigInt raw.total_views)
    avg_views_per_post := raw.avg_views_per_post
    most_popular_post_title := raw.most_popular_post_title
    most_popular_post_views := raw.most_popular_post_views
    categories_used := .fin (jsNumberOfBigInt raw.categories_used)
    total_tags := .fin (jsNumberOfBigInt raw.total_tags)
    first_post_date := raw.first_post_date
    last_post_date := raw.last_post_date }

/-- One row of `TopPostOutputSchema` after `transformTopPost`. -/
structure TopPostOut where
  post_title : String
  author_name : String
  view_count : JsNum
  published_at : ℤ
  tag_count : JsNum
deriving DecidableEq

/-- `transformTopPost`: spreads the raw row and converts `tag_count`
with `Number(...)`. -/
def transformTopPost (raw : TopPostRaw) : TopPostOut :=
  { post_title := raw.post_title
    author_name := raw.author_name
    view_count := raw.view_count
    published_at := raw.published_at
    tag_count := .fin (jsNumberOfBigInt raw.tag_count) }

/-- zod `z.number()` applied to an already-typed number field (as in the
tRPC output validation): the only way it can fail is a NaN value. -/
def zNumberCheck (x : JsNum) : Except String JsNum :=
  match x with
  | .nan => .error "Expected number, received nan"
  | .fin q => .ok (.fin q)

/-- zod `z.number().nullable()` applied to an already-typed field. -/
def zNullableNumberCheck (x : Option JsNum) : Except String (Option JsNum) :=
  match x with
  | none => .ok none
  | some .nan => .error "Expected number, received nan"
  | some (.fin q) => .ok (some (.fin q))

/-- tRPC output validation of one row against
`BlogAnalyticsOutputSchema` (declared via `.output(z.array(...))`). -/
def validateBlogAnalyticsOutput (o : BlogAnalyticsOut) :
    Except (String × String) BlogAnalyticsOut := do
  let total_posts ← (zNumberCheck o.total_posts).mapError (fun m => ("total_posts", m))
  let published_posts ← (zNumberCheck o.published_posts).mapError (fun m => ("published_posts", m))
  let total_views ← (zNumberCheck o.total_views).mapError (fun m => ("total_views", m))
  let avg_views_per_post ← (zNumberCheck o.avg_views_per_post).mapError (fun m => ("avg_views_per_post", m))
  let most_popular_post_views ← (zNullableNumberCheck o.most_popular_post_views).mapError (fun m => ("most_popular_post_views", m))
  let categories_used ← (zNumberCheck o.categories_used).mapError (fun m => ("categories_used", m))
  let total_tags ← (zNumberCheck o.total_tags).mapError (fun m => ("total_tags", m))
  pure { o with total_posts, published_posts, total_views,
                avg_views_per_post, most_popular_post_views,
                categories_used, total_tags }

/-- tRPC output validation of one row against `TopPostOutputSchema`. -/
def validateTopPostOutput (o : TopPostOut) :
    Except (String × String) TopPostOut := do
  let view_count ← (zNumberCheck o.view_count).mapError (fun m => ("view_count", m))
  let tag_count ← (zNumberCheck o.tag_count).mapError (fun m => ("tag_count", m))
  pure { o with view_count, tag_count }

/-- `z.array(schema).parse`, element by element from index `i`:
all-or-nothing, an error carries the failing row index and column. -/
def parseArrayGo {α β : Type} (p : α → Except (String × String) β) :
    ℕ → List α → Except (ℕ × String × String) (List β)
  | _, [] => .ok []
  | i, r :: rest =>
    match p r with
    | .error (c, m) => .error (i, c, m)
    | .ok b =>
      match parseArrayGo p (i + 1) rest with
      | .error e => .error e
      | .ok bs => .ok (b :: bs)

/-- `z.array(schema).parse` on a whole result set. -/
def parseArray {α β : Type} (p : α → Except (String × String) β)
    (rows : List α) : Except (ℕ × String × String) (List β) :=
  parseArrayGo p 0 rows

/-- A database-side failure of the raw query round trip (connectivity,
procedure missing, wrong arity, constraint violation, ...). -/
inductive DbError where
  | queryFailed (msg : String) : DbError
deriving DecidableEq

/-- An error surfaced to the tRPC caller: input-validation rejection
(BAD_REQUEST, the InvalidArguments case), a generic `Error` rethrown from
a handler catch block, or a tRPC output-validation failure. -/
inductive RouteError where
  | invalidArguments (msg : String) : RouteError
  | generic (msg : String) : RouteError
  | outputValidation (idx : ℕ) (col : String) (msg : String) : RouteError
deriving DecidableEq

/-- A parameterized raw query as built by the Prisma `$queryRaw` tagged
template: the constant text fragments of the template literal, and the
interpolated values, which are shipped separately as bound parameters
and never spliced into the text. -/
structure BoundQuery where
  textParts : List String
  params : List Value
deriving DecidableEq

/-- The query built by
`` ctx.db.$queryRaw`SELECT * FROM get_top_posts_by_category(${input.category})` ``:
the template text is constant, the category travels only as a bound
parameter. -/
def topPostsByCategoryQuery (category : String) : BoundQuery :=
  { textParts := ["SELECT * FROM get_top_posts_by_category(", ")"]
    params := [Value.str category] }

/-- The query built by
`` ctx.db.$queryRaw`SELECT * FROM get_blog_analytics()` ``: no
parameters. -/
def blogAnalyticsQuery : BoundQuery :=
  { textParts := ["SELECT * FROM get_blog_analytics()"], params := [] }

/-- The `getBlogAnalytics` endpoint. The handler body (database round
trip, raw-schema array parse, transform) sits inside `try/catch`; any
failure there is caught, logged, and replaced by
`new Error("Failed to fetch blog analytics")`. The tRPC output
validation declared with `.output(z.array(BlogAnalyticsOutputSchema))`
runs after the handler returns, outside the catch. The database round
trip is abstracted as its outcome `dbResult`. -/
def getBlogAnalyticsRoute (dbResult : Except DbError (List RawRow)) :
    Except RouteError (List BlogAnalyticsOut) :=
  let handler : Except RouteError (List BlogAnalyticsOut) :=
    match dbResult with
    | .error _ => .error (.generic "Failed to fetch blog analytics")
    | .ok rows =>
      match parseArray parseBlogAnalyticsRaw rows with
      | .error _ => .error (.generic "Failed to fetch blog analytics")
      | .ok raws => .ok (raws.map transformBlogAnalytics)
  match handler with
  | .error e => .error e
  | .ok outs =>
    match parseArray validateBlogAnalyticsOutput outs with
    | .error (i, c, m) => .error (.outputValidation i c m)
    | .ok outs2 => .ok outs2

/-- tRPC input parsing for `getTopPostsByCategory`:
`z.object({ category: z.string() })`. The input as a whole may be absent
(`none`); a present input must carry a string under `category`. Unknown
extra keys are stripped, zod object parsing being in strip mode by
default. -/
def parseCategoryInput (input : Option RawRow) : Except String String :=
  match input with
  | none => .error "Required"
  | some r =>
    match lookupCol r "category" with
    | some (.str s) => .ok s
    | _ => .error "Expected string"

/-- The `getTopPostsByCategory` endpoint. tRPC parses the input before
the handler runs; on failure the call is rejected with BAD_REQUEST
(InvalidArguments) and the handler, hence the database, is never
reached. The handler queries the database through the bound query, then
parses and transforms inside `try/catch` as in `getBlogAnalytics`;
output validation runs last. The second component reports whether the
database connection was called. -/
def getTopPostsByCategoryRoute (input : Option RawRow)
    (db : BoundQuery → Except DbError (List RawRow)) :
    Except RouteError (List TopPostOut) × Bool :=
  match parseCategoryInput input with
  | .error m => (.error (.invalidArguments m), false)
  | .ok category =>
    let handler : Except RouteError (List TopPostOut) :=
      match db (topPostsByCategoryQuery category) with
      | .error _ => .error (.generic "Failed to fetch top posts")
      | .ok rows =>
        match parseArray parseTopPostRaw rows with
        | .error _ => .error (.generic "Failed to fetch top posts")
        | .ok raws => .ok (raws.map transformTopPost)
    match handler with
    | .error e => (.error e, true)
    | .ok outs =>
      match parseArray validateTopPostOutput outs with
      | .error (i, c, m) => (.error (.outputValidation i c m), true)
      | .ok outs2 => (.ok outs2, true)

/-- The relational state touched by `populateDatabase`: the five tables
(each row paired with its generated integer id, except `post_tags`,
keyed by the pair) and the id sequence shared by the `autoincrement`
columns (not reset by `deleteMany`). Author, category and tag rows are
reduced to (id, name, slug-or-email); post rows to
(id, title, viewCount, published). -/
structure BlogDB where
  nextId : ℕ
  authors : List (ℕ × String × String)
  categories : List (ℕ × String × String)
  tags : List (ℕ × String × String)
  posts : List (ℕ × String × ℤ × Bool)
  postTags : List (ℕ × ℕ)
deriving DecidableEq

/-- The four seeded categories (name, slug), in creation order. -/
def seedCategories : List (String × String) :=
  [("Technology", "technology"),
   ("Web Development", "web-development"),
   ("Database", "database"),
   ("DevOps", "devops")]

/-- The ten seeded tags (name, slug), in creation order. -/
def seedTags : List (String × String) :=
  [("React", "react"), ("Next.js", "nextjs"), ("TypeScript", "typescript"),
   ("PostgreSQL", "postgresql"), ("Prisma", "prisma"),
   ("JavaScript", "javascript"), ("CSS", "css"), ("Docker", "docker"),
   ("AWS", "aws"), ("Node.js", "nodejs")]

/-- The four seeded authors (name, email), in creation order. -/
def seedAuthors : List (String × String) :=
  [("Alice Johnson", "alice@example.com"),
   ("Bob Smith", "bob@example.com"),
   ("Carol Williams", "carol@example.com"),
   ("David Brown", "david@example.com")]

/-- One entry of `postsData`: title, view count, published flag, and the
indices into the created authors, categories and tags arrays used for
`authorId`, `categoryId` and `tagIds`. -/
structure SeedPost where
  title : String
  viewCount : ℤ
  published : Bool
  authorIdx : ℕ
  categoryIdx : ℕ
  tagIdxs : List ℕ
deriving DecidableEq

/-- The eight entries of `postsData`, in creation order, with the tag
index lists exactly as written at the call site
(`tags[1]`, `tags[2]`, `tags[5]`, ...). -/
def seedPosts : List SeedPost :=
  [⟨"Getting Started with Next.js 14", 1250, true, 0, 1, [1, 2, 5]⟩,
   ⟨"Advanced PostgreSQL Optimization Techniques", 890, true, 1, 2, [3]⟩,
   ⟨"Building Type-Safe APIs with Prisma", 2150, true, 0, 2, [4, 2, 3]⟩,
   ⟨"Docker Deployment Best Practices", 760, true, 2, 3, [7, 8]⟩,
   ⟨"Modern CSS Techniques for 2024", 1840, true, 3, 1, [6]⟩,
   ⟨"React Server Components Deep Dive", 3200, true, 3, 1, [0, 1, 2]⟩,
   ⟨"Database Migrations with Prisma", 0, false, 1, 2, [4, 3]⟩,
   ⟨"AWS Lambda with Node.js", 1100, true, 2, 3, [8, 9]⟩]

/-- Run a batch of `create` calls for (name, detail) pairs, assigning
consecutive ids from the sequence. Returns the next id and the created
rows in order. -/
def createMany (next : ℕ) (xs : List (String × String)) :
    ℕ × List (ℕ × String × String) :=
  match xs with
  | [] => (next, [])
  | (a, b) :: rest =>
    let (n, rows) := createMany (next + 1) rest
    (n, (next, a, b) :: rows)

/-- The post-creation loop: for each `postsData` entry, create the post
row, then one `postTag` row per listed tag id. Returns the next id, the
post rows and the post-tag rows, in creation order. -/
def createPosts (next : ℕ) (tagRows : List (ℕ × String × String))
    (ps : List SeedPost) :
    ℕ × List (ℕ × String × ℤ × Bool) × List (ℕ × ℕ) :=
  match ps with
  | [] => (next, [], [])
  | p :: rest =>
    let postId := next
    let pts := p.tagIdxs.map (fun i => (postId, ((tagRows.getD i (0, "", "")).1)))
    let (n, posts, allPts) := createPosts (next + 1) tagRows rest
    (n, (postId, p.title, p.viewCount, p.published) :: posts, pts ++ allPts)

/-- The reported counts: authors, categories, tags, posts, post-tag
relationships, taken from the final table sizes. -/
structure SeedCounts where
  authors : ℕ
  categories : ℕ
  tags : ℕ
  posts : ℕ
  postTags : ℕ
deriving DecidableEq

/-- The `populateDatabase` mutation: `deleteMany` on all five tables in
foreign-key order, then create the 4 categories, the 10 tags, the
4 authors, then each post with its post-tag rows, and finally report the
five table counts. -/
def populateDatabase (s : BlogDB) : BlogDB × SeedCounts :=
  let n0 := s.nextId
  let (n1, cats) := createMany n0 seedCategories
  let (n2, tgs) := createMany n1 seedTags
  let (n3, auths) := createMany n2 seedAuthors
  let (n4, posts, pts) := createPosts n3 tgs seedPosts
  let final : BlogDB :=
    { nextId := n4, authors := auths, categories := cats, tags := tgs,
      posts := posts, postTags := pts }
  (final,
   { authors := final.authors.length, categories := final.categories.length,
     tags := final.tags.length, posts := final.posts.length,
     postTags := final.postTags.length })

/-- The columns declared by `BlogAnalyticsRawSchema`, in declaration
order (the output shape of `get_blog_analytics`). -/
def blogColumns : List String :=
  ["author_name", "author_email", "total_posts", "published_posts",
   "total_views", "avg_views_per_post", "most_popular_post_title",
   "most_popular_post_views", "categories_used", "total_tags",
   "first_post_date", "last_post_date"]

/-- The columns declared by `TopPostRawSchema` (the output shape of
`get_top_posts_by_category`). -/
def topPostColumns : List String :=
  ["post_title", "author_name", "view_count", "published_at", "tag_count"]

/-- The contents of the seeded tables with the generated ids stripped:
author names, category names, tag names, post (title, viewCount,
published) triples, and the number of post-tag rows. -/
def dbContents (d : BlogDB) :
    List String × List String × List String × List (String × ℤ × Bool) × ℕ :=
  (d.authors.map (fun a => a.2.1), d.categories.map (fun c => c.2.1),
   d.tags.map (fun t => t.2.1), d.posts.map (fun p => p.2),
   d.postTags.length)

/-- A raw `get_blog_analytics` row with every column present and
well-typed, as the database driver would deliver it. -/
def validBlogRow : RawRow :=
  [("author_name", .str "Alice Johnson"),
   ("author_email", .str "alice@example.com"),
   ("total_posts", .bigIntV 3),
   ("published_posts", .bigIntV 2),
   ("total_views", .bigIntV 3400),
   ("avg_views_per_post", .decimalV 1550),
   ("most_popular_post_title", .str "Building Type-Safe APIs with Prisma"),
   ("most_popular_post_views", .numV (.fin 2150)),
   ("categories_used", .bigIntV 2),
   ("total_tags", .bigIntV 5),
   ("first_post_date", .dateV 1705276800000),
   ("last_post_date", .dateV 1706745600000)]

/-- `validBlogRow` with the required `total_posts` column missing. -/
def rowMissingTotalPosts : RawRow :=
  [("author_name", .str "Alice Johnson"),
   ("author_email", .str "alice@example.com"),
   ("published_posts", .bigIntV 2),
   ("total_views", .bigIntV 3400),
   ("avg_views_per_post", .decimalV 1550),
   ("most_popular_post_title", .str "Building Type-Safe APIs with Prisma"),
   ("most_popular_post_views", .numV (.fin 2150)),
   ("categories_used", .bigIntV 2),
   ("total_tags", .bigIntV 5),
   ("first_post_date", .dateV 1705276800000),
   ("last_post_date", .dateV 1706745600000)]

/-- `validBlogRow` with non-numeric text in the
`avg_views_per_post` (ArbitraryPrecisionNumber) column. -/
def rowAvgNonNumericText : RawRow :=
  [("author_name", .str "Alice Johnson"),
   ("author_email", .str "alice@example.com"),
   ("total_posts", .bigIntV 3),
   ("published_posts", .bigIntV 2),
   ("total_views", .bigIntV 3400),
   ("avg_views_per_post", .str "abc"),
   ("most_popular_post_title", .str "Building Type-Safe APIs with Prisma"),
   ("most_popular_post_views", .numV (.fin 2150)),
   ("categories_used", .bigIntV 2),
   ("total_tags", .bigIntV 5),
   ("first_post_date", .dateV 1705276800000),
   ("last_post_date", .dateV 1706745600000)]

/-- `validBlogRow` with non-numeric text in the `total_posts`
(WideInteger) column. -/
def rowBadTotalPosts : RawRow :=
  [("author_name", .str "Alice Johnson"),
   ("author_email", .str "alice@example.com"),
   ("total_posts", .str "not a number"),
   ("published_posts", .bigIntV 2),
   ("total_views", .bigIntV 3400),
   ("avg_views_per_post", .decimalV 1550),
   ("most_popular_post_title", .str "Building Type-Safe APIs with Prisma"),
   ("most_popular_post_views", .numV (.fin 2150)),
   ("categories_used", .bigIntV 2),
   ("total_tags", .bigIntV 5),
   ("first_post_date", .dateV 1705276800000),
   ("last_post_date", .dateV 1706745600000)]

/-- `validBlogRow` with all four optional columns present but null. -/
def rowOptionalNulls : RawRow :=
  [("author_name", .str "Alice Johnson"),
   ("author_email", .str "alice@example.com"),
   ("total_posts", .bigIntV 3),
   ("published_posts", .bigIntV 2),
   ("total_views", .bigIntV 3400),
   ("avg_views_per_post", .decimalV 1550),
   ("most_popular_post_title", .nullV),
   ("most_popular_post_views", .nullV),
   ("categories_used", .bigIntV 2),
   ("total_tags", .bigIntV 5),
   ("first_post_date", .nullV),
   ("last_post_date", .nullV)]

/-- `validBlogRow` with a `total_posts` value of
`9007199254740993 = 2^53 + 1`, the smallest positive wide integer that
is not exactly representable as a double. -/
def rowHugeTotalPosts : RawRow :=
  [("author_name", .str "Alice Johnson"),
   ("author_email", .str "alice@example.com"),
   ("total_posts", .bigIntV 9007199254740993),
   ("published_posts", .bigIntV 2),
   ("total_views", .bigIntV 3400),
   ("avg_views_per_post", .decimalV 1550),
   ("most_popular_post_title", .str "Building Type-Safe APIs with Prisma"),
   ("most_popular_post_views", .numV (.fin 2150)),
   ("categories_used", .bigIntV 2),
   ("total_tags", .bigIntV 5),
   ("first_post_date", .dateV 1705276800000),
   ("last_post_date", .dateV 1706745600000)]

/-- The parse of `rowAvgNonNumericText`: identical to the parse of
`validBlogRow` except that the average is NaN. -/
def parsedAvgNaN : BlogAnalyticsRaw :=
  ⟨"Alice Johnson", "alice@example.com", 3, 2, 3400, .nan,
   some "Building Type-Safe APIs with Prisma", some (.fin 2150), 2, 5,
   some 1705276800000, some 1706745600000⟩

/-- The parse of `rowOptionalNulls`: all four optional fields carry the
absent marker. -/
def parsedOptionalNulls : BlogAnalyticsRaw :=
  ⟨"Alice Johnson", "alice@example.com", 3, 2, 3400, .fin 1550,
   none, none, 2, 5, none, none⟩

/-- The endpoint output row produced from `rowHugeTotalPosts`: the call
succeeds and `total_posts` has become `2^53`. -/
def outHugeTotalPosts : BlogAnalyticsOut :=
  ⟨"Alice Johnson", "alice@example.com", .fin 9007199254740992, .fin 2,
   .fin 3400, .fin 1550, some "Building Type-Safe APIs with Prisma",
   some (.fin 2150), .fin 2, .fin 5, some 1705276800000,
   some 1706745600000⟩

/-- A raw `get_top_posts_by_category` row with every column present and
well-typed. -/
def validTopPostRow : RawRow :=
  [("post_title", .str "React Server Components Deep Dive"),
   ("author_name", .str "David Brown"),
   ("view_count", .numV (.fin 3200)),
   ("published_at", .dateV 1709251200000),
   ("tag_count", .bigIntV 3)]

/-! ### Helper lemmas -/

theorem except_bind_ok {ε α β : Type} {x : Except ε α} {f : α → Except ε β}
    {b : β} (h : (x >>= f) = .ok b) : ∃ a, x = .ok a ∧ f a = .ok b := by
  cases x with
  | ok a => exact ⟨a, rfl, h⟩
  | error e => exact absurd h (by simp [Bind.bind, Except.bind])

theorem fieldP_ok {α : Type} {col : String} {p : Option Value → Except String α}
    {r : RawRow} {a : α} (h : fieldP col p r = .ok a) :
    p (lookupCol r col) = .ok a := by
  unfold fieldP at h
  cases hp : p (lookupCol r col) with
  | ok v => rw [hp] at h; simp [Except.mapError] at h; rw [h]
  | error e => rw [hp] at h; simp [Except.mapError] at h

theorem parseBlogAnalyticsRaw_ok {r : RawRow} {b : BlogAnalyticsRaw}
    (h : parseBlogAnalyticsRaw r = .ok b) :
    zString (lookupCol r "author_name") = .ok b.author_name ∧
    zString (lookupCol r "author_email") = .ok b.author_email ∧
    zBigInt (lookupCol r "total_posts") = .ok b.total_posts ∧
    zBigInt (lookupCol r "published_posts") = .ok b.published_posts ∧
    zBigInt (lookupCol r "total_views") = .ok b.total_views ∧
    avgViewsTransform (lookupCol r "avg_views_per_post") = b.avg_views_per_post ∧
    zNullableString (lookupCol r "most_popular_post_title") = .ok b.most_popular_post_title ∧
    zNullableNumber (lookupCol r "most_popular_post_views") = .ok b.most_popular_post_views ∧
    zBigInt (lookupCol r "categories_used") = .ok b.categories_used ∧
    zBigInt (lookupCol r "total_tags") = .ok b.total_tags ∧
    zNullableDate (lookupCol r "first_post_date") = .ok b.first_post_date ∧
    zNullableDate (lookupCol r "last_post_date") = .ok b.last_post_date := by
  unfold parseBlogAnalyticsRaw at h
  obtain ⟨a1, h1, h⟩ := except_bind_ok h
  obtain ⟨a2, h2, h⟩ := except_bind_ok h
  obtain ⟨a3, h3, h⟩ := except_bind_ok h
  obtain ⟨a4, h4, h⟩ := except_bind_ok h
  obtain ⟨a5, h5, h⟩ := except_bind_ok h
  obtain ⟨a7, h7, h⟩ := except_bind_ok h
  obtain ⟨a8, h8, h⟩ := except_bind_ok h
  obtain ⟨a9, h9, h⟩ := except_bind_ok h
  obtain ⟨a10, h10, h⟩ := except_bind_ok h
  obtain ⟨a11, h11, h⟩ := except_bind_ok h
  obtain ⟨a12, h12, h⟩ := except_bind_ok h
  simp only [Pure.pure, Except.pure, Except.ok.injEq] at h
  subst h
  exact ⟨fieldP_ok h1, fieldP_ok h2, fieldP_ok h3, fieldP_ok h4,
    fieldP_ok h5, rfl, fieldP_ok h7, fieldP_ok h8, fieldP_ok h9,
    fieldP_ok h10, fieldP_ok h11, fieldP_ok h12⟩

theorem validateBlogAnalyticsOutput_ok {o o2 : BlogAnalyticsOut}
    (h : validateBlogAnalyticsOutput o = .ok o2) :
    o.avg_views_per_post ≠ .nan := by
  unfold validateBlogAnalyticsOutput at h
  obtain ⟨a1, h1, h⟩ := except_bind_ok h
  obtain ⟨a2, h2, h⟩ := except_bind_ok h
  obtain ⟨a3, h3, h⟩ := except_bind_ok h
  obtain ⟨a4, h4, h⟩ := except_bind_ok h
  intro hnan
  rw [hnan] at h4
  simp [zNumberCheck, Except.mapError] at h4

theorem parseArrayGo_ok_get {α β : Type} {p : α → Except (String × String) β} :
    ∀ {i : ℕ} {xs : List α} {ys : List β},
      parseArrayGo p i xs = .ok ys →
      ∀ (j : ℕ) (hj : j < xs.length),
        ∃ hj2 : j < ys.length, p (xs.get ⟨j, hj⟩) = .ok (ys.get ⟨j, hj2⟩) := by
  intro i xs
  induction xs generalizing i with
  | nil => intro ys h j hj; exact absurd hj (by simp)
  | cons x rest ih =>
    intro ys h j hj
    rw [parseArrayGo] at h
    cases hp : p x with
    | error e =>
      rw [hp] at h
      cases e
      simp at h
    | ok b =>
      rw [hp] at h
      cases hr : parseArrayGo p (i + 1) rest with
      | error e2 => rw [hr] at h; simp at h
      | ok bs =>
        rw [hr] at h
        simp only [Except.ok.injEq] at h
        subst h
        cases j with
        | zero => exact ⟨by simp, by simpa using hp⟩
        | succ j =>
          obtain ⟨hj2, hget⟩ := ih hr j (by simpa using hj)
          exact ⟨by simpa using hj2, by simpa using hget⟩

theorem parseArray_ok_get {α β : Type} {p : α → Except (String × String) β}
    {xs : List α} {ys : List β} (h : parseArray p xs = .ok ys)
    (j : ℕ) (hj : j < xs.length) :
    ∃ hj2 : j < ys.length, p (xs.get ⟨j, hj⟩) = .ok (ys.get ⟨j, hj2⟩) :=
  parseArrayGo_ok_get (by simpa [parseArray] using h) j hj

theorem lookupCol_cons_ne {k c : String} {v : Value} {r : RawRow} (h : c ≠ k) :
    lookupCol ((k, v) :: r) c = lookupCol r c := by
  unfold lookupCol
  rw [List.find?_cons_of_neg]
  simp [Ne.symm h]

theorem lookupCol_append_single {k c : String} {v : Value} {r : RawRow}
    (h : c ≠ k) : lookupCol (r ++ [(k, v)]) c = lookupCol r c := by
  unfold lookupCol
  rw [List.find?_append]
  cases hf : r.find? (fun p => p.1 = c) with
  | some x => simp [hf]
  | none => simp [hf, List.find?, Ne.symm h]

theorem parseTopPostRaw_congr {r r' : RawRow}
    (h : ∀ c ∈ topPostColumns, lookupCol r c = lookupCol r' c) :
    parseTopPostRaw r = parseTopPostRaw r' := by
  have h1 := h "post_title" (by simp [topPostColumns])
  have h2 := h "author_name" (by simp [topPostColumns])
  have h3 := h "view_count" (by simp [topPostColumns])
  have h4 := h "published_at" (by simp [topPostColumns])
  have h5 := h "tag_count" (by simp [topPostColumns])
  unfold parseTopPostRaw fieldP
  rw [h1, h2, h3, h4, h5]

theorem getBlogAnalyticsRoute_parse_error {rows : List RawRow}
    {e : ℕ × String × String}
    (h : parseArray parseBlogAnalyticsRaw rows = .error e) :
    getBlogAnalyticsRoute (.ok rows) =
      .error (.generic "Failed to fetch blog analytics") := by
  unfold getBlogAnalyticsRoute
  simp [h]

theorem getBlogAnalyticsRoute_output_error {rows : List RawRow}
    {raws : List BlogAnalyticsRaw} {i : ℕ} {c m : String}
    (hp : parseArray parseBlogAnalyticsRaw rows = .ok raws)
    (hq : parseArray validateBlogAnalyticsOutput
        (raws.map transformBlogAnalytics) = .error (i, c, m)) :
    getBlogAnalyticsRoute (.ok rows) = .error (.outputValidation i c m) := by
  unfold getBlogAnalyticsRoute
  simp [hp, hq]

/-- Claim C3: if any raw row is missing a declared column or otherwise fails
validation, the whole `getBlogAnalytics` call fails and returns no rows. -/
theorem blog_validation_all_or_nothing (rows : List RawRow) (i : ℕ)
    (hi : i < rows.length)
    (h : (∃ k, k ∈ blogColumns ∧ lookupCol (rows.get ⟨i, hi⟩) k = none) ∨
      ∃ e, parseBlogAnalyticsRaw (rows.get ⟨i, hi⟩) = .error e) :
    ∃ e, getBlogAnalyticsRoute (.ok rows) = .error e := by
  cases hp : parseArray parseBlogAnalyticsRaw rows with
  | error e => exact ⟨_, getBlogAnalyticsRoute_parse_error hp⟩
  | ok raws =>
    obtain ⟨hi2, hrow⟩ := parseArray_ok_get hp i hi
    rcases h with ⟨k, hk, hnone⟩ | ⟨e, he⟩
    · obtain ⟨f1, f2, f3, f4, f5, f6, f7, f8, f9, f10, f11, f12⟩ :=
        parseBlogAnalyticsRaw_ok hrow
      simp only [blogColumns, List.mem_cons, List.not_mem_nil, or_false] at hk
      rcases hk with rfl | rfl | rfl | rfl | rfl | rfl | rfl | rfl | rfl | rfl | rfl | rfl
      · rw [hnone] at f1; simp [zString] at f1
      · rw [hnone] at f2; simp [zString] at f2
      · rw [hnone] at f3; simp [zBigInt] at f3
      · rw [hnone] at f4; simp [zBigInt] at f4
      · rw [hnone] at f5; simp [zBigInt] at f5
      · have havg : (raws.get ⟨i, hi2⟩).avg_views_per_post = .nan := by
          rw [hnone] at f6
          simpa [avgViewsTransform, jsToNumber] using f6.symm
        cases hq : parseArray validateBlogAnalyticsOutput
            (raws.map transformBlogAnalytics) with
        | error e2 =>
          obtain ⟨i2, c2, m2⟩ := e2
          exact ⟨_, getBlogAnalyticsRoute_output_error hp hq⟩
        | ok outs2 =>
          exfalso
          have hlen : i < (raws.map transformBlogAnalytics).length := by
            simpa using hi2
          obtain ⟨hi3, hv⟩ := parseArray_ok_get hq i hlen
          rw [List.get_map] at hv
          exact validateBlogAnalyticsOutput_ok hv
            (by simpa [transformBlogAnalytics] using havg)
      · rw [hnone] at f7; simp [zNullableString] at f7
      · rw [hnone] at f8; simp [zNullableNumber] at f8
      · rw [hnone] at f9; simp [zBigInt] at f9
      · rw [hnone] at f10; simp [zBigInt] at f10
      · rw [hnone] at f11; simp [zNullableDate] at f11
      · rw [hnone] at f12; simp [zNullableDate] at f12
    · rw [he] at hrow; simp at hrow

/-- Witness for claim C3: a batch of one complete row and one row missing
`total_posts` yields a failure and zero rows. -/
theorem blog_validation_all_or_nothing_witness :
    ∃ e, getBlogAnalyticsRoute (.ok [validBlogRow, rowMissingTotalPosts]) =
      .error e :=
  blog_validation_all_or_nothing [validBlogRow, rowMissingTotalPosts] 1
    (by decide)
    (Or.inl ⟨"total_posts", by decide, by with_unfolding_all rfl⟩)

/-- Counterexample for claim C1: a `total_posts` of `2^53 + 1` flows through
`getBlogAnalytics` without any failure and comes out as `2^53`: the
normalization silently rounds instead of failing. -/
theorem wideInteger_truncation_counterexample :
    getBlogAnalyticsRoute (.ok [rowHugeTotalPosts]) = .ok [outHugeTotalPosts]
    ∧ lookupCol rowHugeTotalPosts "total_posts" =
      some (.bigIntV 9007199254740993)
    ∧ outHugeTotalPosts.total_posts = .fin ((9007199254740992 : ℤ) : ℚ)
    ∧ (9007199254740992 : ℤ) ≠ 9007199254740993 :=
  ⟨by with_unfolding_all rfl, by with_unfolding_all rfl,
   by with_unfolding_all rfl, by decide⟩

/-- Amended claim C1: WideInteger normalization is exact within the safe
integer range; outside it the conversion silently rounds and never
fails. -/
theorem wideInteger_exact_within_safe_range (b : BlogAnalyticsRaw)
    (h : b.total_posts.natAbs ≤ 2 ^ 53 - 1) :
    (transformBlogAnalytics b).total_posts = .fin (b.total_posts : ℚ) := by
  have h2 : b.total_posts.natAbs ≤ 2 ^ 53 := le_trans h (by norm_num)
  simp only [transformBlogAnalytics, jsNumberOfBigInt, if_pos h2]

theorem wideInteger_exact_within_safe_range_witness :
    (transformBlogAnalytics parsedOptionalNulls).total_posts =
      .fin ((3 : ℤ) : ℚ) :=
  wideInteger_exact_within_safe_range parsedOptionalNulls (by decide)

/-- Counterexample for claim C2: two different component failures (a database
failure with a cause, a validation failure on row 0, column
author_name) are both surfaced as the same generic error, which names
neither the cause nor the row or column. -/
theorem failure_context_lost_counterexample :
    getBlogAnalyticsRoute (.error (.queryFailed "connection refused")) =
      .error (.generic "Failed to fetch blog analytics")
    ∧ getBlogAnalyticsRoute (.ok [[]]) =
      .error (.generic "Failed to fetch blog analytics") :=
  ⟨by with_unfolding_all rfl, by with_unfolding_all rfl⟩

/-- Amended claim C2: every component failure makes the call fail (nothing is
swallowed into a default or empty result), but the catch blocks replace
it with a fixed generic per-endpoint message carrying no cause, row or
column. -/
theorem failures_become_generic_error :
    (∀ e : DbError, getBlogAnalyticsRoute (.error e) =
      .error (.generic "Failed to fetch blog analytics"))
    ∧ (∀ (rows : List RawRow) (e : ℕ × String × String),
        parseArray parseBlogAnalyticsRaw rows = .error e →
        getBlogAnalyticsRoute (.ok rows) =
          .error (.generic "Failed to fetch blog analytics"))
    ∧ (∀ (input : Option RawRow) (category : String)
        (db : BoundQuery → Except DbError (List RawRow)) (e : DbError),
        parseCategoryInput input = .ok category →
        db (topPostsByCategoryQuery category) = .error e →
        getTopPostsByCategoryRoute input db =
          (.error (.generic "Failed to fetch top posts"), true)) := by
  refine ⟨fun e => rfl, fun rows e h => getBlogAnalyticsRoute_parse_error h,
    fun input category db e hin hdb => ?_⟩
  unfold getTopPostsByCategoryRoute
  simp [hin, hdb]

theorem failures_become_generic_error_witness :
    getBlogAnalyticsRoute (.ok [[]]) =
      .error (.generic "Failed to fetch blog analytics")
    ∧ getTopPostsByCategoryRoute (some [("category", .str "technology")])
        (fun _ => .error (.queryFailed "connection refused")) =
      (.error (.generic "Failed to fetch top posts"), true) :=
  ⟨failures_become_generic_error.2.1 [[]]
     (0, "author_name", "Expected string") (by with_unfolding_all rfl),
   failures_become_generic_error.2.2 (some [("category", .str "technology")])
     "technology" (fun _ => .error (.queryFailed "connection refused"))
     (.queryFailed "connection refused") (by with_unfolding_all rfl) rfl⟩

/-- Counterexample for claim C4: the present, non-null, non-numeric text value
`"abc"` in the ArbitraryPrecisionNumber column is accepted by the raw
validator, which produces NaN instead of failing. -/
theorem nonNumericText_accepted_counterexample :
    lookupCol rowAvgNonNumericText "avg_views_per_post" = some (.str "abc")
    ∧ parseBlogAnalyticsRaw rowAvgNonNumericText = .ok parsedAvgNaN
    ∧ parsedAvgNaN.avg_views_per_post = .nan :=
  ⟨by with_unfolding_all rfl, by with_unfolding_all rfl, rfl⟩

/-- Amended claim C4: a non-coercible present value in a WideInteger column
fails validation; in the ArbitraryPrecisionNumber column it is instead
coerced to NaN, which only the endpoint output validation rejects — the
call still fails, but with an output-validation error rather than a row
validation failure. -/
theorem nonCoercible_values (r : RawRow) (v : Value) (b : BlogAnalyticsRaw)
    (hv : lookupCol r "total_posts" = some v)
    (hnb : ∀ n : ℤ, v ≠ .bigIntV n) :
    parseBlogAnalyticsRaw r ≠ .ok b
    ∧ getBlogAnalyticsRoute (.ok [rowAvgNonNumericText]) =
      .error (.outputValidation 0 "avg_views_per_post"
        "Expected number, received nan") := by
  constructor
  · intro hok
    have f3 := (parseBlogAnalyticsRaw_ok hok).2.2.1
    rw [hv] at f3
    cases v with
    | bigIntV n => exact hnb n rfl
    | str s => simp [zBigInt] at f3
    | numV x => simp [zBigInt] at f3
    | dateV t => simp [zBigInt] at f3
    | nullV => simp [zBigInt] at f3
    | decimalV q => simp [zBigInt] at f3
    | boolV bb => simp [zBigInt] at f3
  · with_unfolding_all rfl

theorem nonCoercible_values_witness :
    parseBlogAnalyticsRaw rowBadTotalPosts ≠ .ok parsedAvgNaN
    ∧ getBlogAnalyticsRoute (.ok [rowAvgNonNumericText]) =
      .error (.outputValidation 0 "avg_views_per_post"
        "Expected number, received nan") :=
  nonCoercible_values rowBadTotalPosts (.str "not a number") parsedAvgNaN
    (by with_unfolding_all rfl) (fun n h => Value.noConfusion h)

/-- Claim C5: the query text of `getTopPostsByCategory` consists of the
constant template fragments only — it is the same for every category
value, and the caller-supplied value travels exclusively as a bound
parameter, never concatenated into the text. -/
theorem category_param_bound_never_in_text (c₁ c₂ : String) :
    (topPostsByCategoryQuery c₁).textParts = (topPostsByCategoryQuery c₂).textParts
    ∧ (topPostsByCategoryQuery c₁).params = [Value.str c₁] :=
  ⟨rfl, rfl⟩

/-- Counterexample for claim C6: an input carrying two parameters (the declared
`category` plus an extra one) is not rejected — the extra key is
stripped, the database is called, and the invocation succeeds. -/
theorem extra_parameter_not_rejected_counterexample :
    getTopPostsByCategoryRoute
      (some [("category", .str "technology"), ("foo", .str "bar")])
      (fun _ => .ok []) = (.ok [], true)
    ∧ ([("category", Value.str "technology"), ("foo", Value.str "bar")] : RawRow).length = 2
    ∧ (2 : ℕ) ≠ 1 :=
  ⟨by with_unfolding_all rfl, rfl, by decide⟩

/-- Amended claim C6: whenever the declared `category` string cannot be
extracted from the input (no input, an empty parameter object, a
missing or non-string `category` — in particular any parameter list
with fewer entries than declared), the invocation fails with
InvalidArguments and the database connection is never called; extra
parameters beyond the declared one, however, are stripped rather than
rejected. -/
theorem invalid_input_fails_before_db (input : Option RawRow)
    (db : BoundQuery → Except DbError (List RawRow)) (m : String)
    (h : parseCategoryInput input = .error m) :
    getTopPostsByCategoryRoute input db =
      (.error (.invalidArguments m), false) := by
  unfold getTopPostsByCategoryRoute
  simp [h]

theorem invalid_input_fails_before_db_witness :
    getTopPostsByCategoryRoute (some [])
      (fun _ => .error (.queryFailed "stub that must never be called")) =
      (.error (.invalidArguments "Expected string"), false) :=
  invalid_input_fails_before_db (some [])
    (fun _ => .error (.queryFailed "stub that must never be called"))
    "Expected string" (by with_unfolding_all rfl)

/-- Claim C7: whenever a successfully validated row had an optional column
absent or null, the corresponding field of the transformed row is the
absent marker `none` (never a zero or empty-string default); for the
absent case the row cannot validate at all, so the claim holds
vacuously there. -/
theorem optional_null_yields_absent_marker (r : RawRow)
    (b : BlogAnalyticsRaw) (h : parseBlogAnalyticsRaw r = .ok b) :
    ((lookupCol r "most_popular_post_title" = some .nullV ∨
        lookupCol r "most_popular_post_title" = none) →
      (transformBlogAnalytics b).most_popular_post_title = none)
    ∧ ((lookupCol r "most_popular_post_views" = some .nullV ∨
        lookupCol r "most_popular_post_views" = none) →
      (transformBlogAnalytics b).most_popular_post_views = none)
    ∧ ((lookupCol r "first_post_date" = some .nullV ∨
        lookupCol r "first_post_date" = none) →
      (transformBlogAnalytics b).first_post_date = none)
    ∧ ((lookupCol r "last_post_date" = some .nullV ∨
        lookupCol r "last_post_date" = none) →
      (transformBlogAnalytics b).last_post_date = none) := by
  obtain ⟨f1, f2, f3, f4, f5, f6, f7, f8, f9, f10, f11, f12⟩ :=
    parseBlogAnalyticsRaw_ok h
  refine ⟨fun hc => ?_, fun hc => ?_, fun hc => ?_, fun hc => ?_⟩
  · rcases hc with hc | hc
    · rw [hc] at f7
      simp only [zNullableString, Except.ok.injEq] at f7
      simp [transformBlogAnalytics, ← f7]
    · rw [hc] at f7; simp [zNullableString] at f7
  · rcases hc with hc | hc
    · rw [hc] at f8
      simp only [zNullableNumber, Except.ok.injEq] at f8
      simp [transformBlogAnalytics, ← f8]
    · rw [hc] at f8; simp [zNullableNumber] at f8
  · rcases hc with hc | hc
    · rw [hc] at f11
      simp only [zNullableDate, Except.ok.injEq] at f11
      simp [transformBlogAnalytics, ← f11]
    · rw [hc] at f11; simp [zNullableDate] at f11
  · rcases hc with hc | hc
    · rw [hc] at f12
      simp only [zNullableDate, Except.ok.injEq] at f12
      simp [transformBlogAnalytics, ← f12]
    · rw [hc] at f12; simp [zNullableDate] at f12

theorem optional_null_yields_absent_marker_witness :
    (transformBlogAnalytics parsedOptionalNulls).most_popular_post_title = none
    ∧ (transformBlogAnalytics parsedOptionalNulls).most_popular_post_views = none
    ∧ (transformBlogAnalytics parsedOptionalNulls).first_post_date = none
    ∧ (transformBlogAnalytics parsedOptionalNulls).last_post_date = none := by
  have t := optional_null_yields_absent_marker rowOptionalNulls
    parsedOptionalNulls (by with_unfolding_all rfl)
  exact ⟨t.1 (Or.inl (by with_unfolding_all rfl)),
    t.2.1 (Or.inl (by with_unfolding_all rfl)),
    t.2.2.1 (Or.inl (by with_unfolding_all rfl)),
    t.2.2.2 (Or.inl (by with_unfolding_all rfl))⟩

/-- Claim C8: a column not declared in the output shape never influences
validation — parsing a raw row with an extra binding (prepended or
appended) gives exactly the same result as without it, so the extra
column neither appears in the validated row nor causes a failure. -/
theorem extra_columns_ignored (r : RawRow) (k : String) (v : Value)
    (h : k ∉ topPostColumns) :
    parseTopPostRaw ((k, v) :: r) = parseTopPostRaw r
    ∧ parseTopPostRaw (r ++ [(k, v)]) = parseTopPostRaw r := by
  have hne : ∀ c ∈ topPostColumns, c ≠ k := by
    intro c hc hck
    exact h (hck ▸ hc)
  constructor
  · exact parseTopPostRaw_congr (fun c hc => lookupCol_cons_ne (hne c hc))
  · exact parseTopPostRaw_congr (fun c hc => lookupCol_append_single (hne c hc))

theorem extra_columns_ignored_witness :
    parseTopPostRaw (("internal_id", Value.bigIntV 42) :: validTopPostRow) =
      parseTopPostRaw validTopPostRow
    ∧ parseTopPostRaw (validTopPostRow ++ [("internal_id", Value.bigIntV 42)]) =
      parseTopPostRaw validTopPostRow :=
  extra_columns_ignored validTopPostRow "internal_id" (Value.bigIntV 42)
    (by decide)

/-- Claim C9: ArbitraryPrecisionNumber normalization of the raw value
representing 1550.00 — given as numeric text or as a decimal object
exposing a to-numeric conversion — yields the (exactly representable)
floating-point value 1550. -/
theorem arbitraryPrecision_1550 :
    avgViewsTransform (some (.str "1550.00")) = .fin 1550
    ∧ avgViewsTransform (some (.decimalV 1550)) = .fin 1550 :=
  ⟨by with_unfolding_all rfl, rfl⟩

/-- Counterexample for claim C10: populating an empty database reports 17
post-tag relationships, not 19. -/
theorem populate_postTag_count_counterexample :
    (populateDatabase ⟨0, [], [], [], [], []⟩).2 = ⟨4, 4, 10, 8, 17⟩
    ∧ (17 : ℕ) ≠ 19 :=
  ⟨by with_unfolding_all rfl, by decide⟩

/-- Amended claim C10: `populateDatabase` deletes everything and re-inserts
the fixed seed, so from every starting state a successful call reports
the counts 4 authors, 4 categories, 10 tags, 8 posts and 17 post-tag
relationships, and leaves the same table contents up to the generated
ids. -/
theorem populate_deterministic (s : BlogDB) :
    (populateDatabase s).2 = ⟨4, 4, 10, 8, 17⟩
    ∧ dbContents (populateDatabase s).1 =
      dbContents (populateDatabase ⟨0, [], [], [], [], []⟩).1 := by
  constructor <;>
    simp [populateDatabase, createMany, createPosts, seedCategories,
      seedTags, seedAuthors, seedPosts, dbContents]

end StoredProcs
